import Mathlib

/-!
Shallow embedding of the ingestion core of the music-marketplace backend
(src/spotify-seeder.js and src/album-cover-seeder.js), with theorems checking
the natural-language specification against it.

Conventions used throughout:
* machine timestamps (Date.now(), new Date()) are Nat milliseconds passed in
  as a `now` parameter;
* external effects (token exchange, page fetch, image download, blob upload)
  are oracles passed in as parameters, and the sequencing of those effects is
  recorded in explicit event lists;
* the relational store is a list of rows per table, with the unique keys of
  prisma/migrations (spotify_id per entity, (album_id, type) for media,
  (playlist_id, track_id, position) for playlist tracks) enforced by lookups;
* nullable JavaScript values are Option, and JavaScript truthiness tests on
  strings and numbers are modelled by strTruthy and natTruthy below.
-/

namespace MusicSeeder

/-- JavaScript truthiness of a possibly-null string: null and "" are falsy. -/
def strTruthy : Option String → Bool
  | none => false
  | some s => !(s == "")

/-- JavaScript truthiness of a possibly-null number: null and 0 are falsy. -/
def natTruthy : Option Nat → Bool
  | none => false
  | some n => !(n == 0)

/-! ## Token provider — getAccessToken, src/spotify-seeder.js lines 68 to 94
(the identical function also appears in src/album-cover-seeder.js lines 54 to 80) -/

/-- The mutable fields of the seeder object that getAccessToken reads and
writes: this.accessToken and this.tokenExpiry, both initially null. -/
structure TokenState where
  accessToken : Option String
  tokenExpiry : Option Nat
deriving Repr, DecidableEq

/-- The parsed body of the token endpoint response: access_token and
expires_in (seconds). -/
structure TokenResponse where
  access_token : String
  expires_in : Nat
deriving Repr, DecidableEq

/-- getAccessToken.  `now` is Date.now() in milliseconds; `exchange` is the
outcome of the client-credential POST, performed only when the cached-token
guard fails.  Returns the token, the new seeder state, and whether the
network exchange was performed. -/
def getAccessToken (st : TokenState) (now : Nat) (exchange : Except String TokenResponse) :
    Except String (String × TokenState × Bool) :=
  if strTruthy st.accessToken && natTruthy st.tokenExpiry && decide (now < st.tokenExpiry.getD 0) then
    Except.ok (st.accessToken.getD "", st, false)
  else
    match exchange with
    | Except.error e => Except.error e
    | Except.ok r =>
      Except.ok (r.access_token,
        { accessToken := some r.access_token, tokenExpiry := some (now + r.expires_in * 1000) },
        true)

/-! ## Entity upserts — upsertArtist (lines 168 to 190), upsertAlbum
(lines 193 to 221), upsertTrack (lines 248 to 285) of src/spotify-seeder.js -/

/-- The fields of a Spotify artist object that upsertArtist reads. -/
structure ArtistData where
  id : String
  name : String
  spotify_url : Option String
  popularity : Option Nat
deriving Repr, DecidableEq

/-- A row of the artists table (prisma model Artist). -/
structure ArtistRow where
  id : String
  spotify_id : String
  name : String
  spotify_url : Option String
  popularity : Option Nat
  created_at : Nat
  updated_at : Nat
deriving Repr, DecidableEq

/-- prisma.artist.upsert keyed by spotify_id, exactly as in upsertArtist:
the update branch overwrites name, spotify_url, popularity and updated_at;
the create branch fills every field, with created_at defaulted to now. -/
def upsertArtist (db : List ArtistRow) (d : ArtistData) (now : Nat) (freshId : String) :
    ArtistRow × List ArtistRow :=
  match db.find? (fun r => r.spotify_id == d.id) with
  | some old =>
    let updated : ArtistRow :=
      { old with name := d.name, spotify_url := d.spotify_url,
                 popularity := d.popularity, updated_at := now }
    (updated, db.map (fun r => if r.spotify_id == d.id then updated else r))
  | none =>
    let created : ArtistRow :=
      { id := freshId, spotify_id := d.id, name := d.name, spotify_url := d.spotify_url,
        popularity := d.popularity, created_at := now, updated_at := now }
    (created, db ++ [created])

/-- The fields of a Spotify album object that upsertAlbum reads. -/
structure AlbumData where
  id : String
  name : String
  album_type : String
  total_tracks : Nat
  release_date : String
  release_date_precision : String
  spotify_url : Option String
deriving Repr, DecidableEq

/-- A row of the albums table (prisma model Album). -/
structure AlbumRow where
  id : String
  spotify_id : String
  name : String
  album_type : String
  total_tracks : Nat
  release_date : String
  release_date_precision : String
  spotify_url : Option String
  created_at : Nat
  updated_at : Nat
deriving Repr, DecidableEq

/-- prisma.album.upsert keyed by spotify_id, exactly as in upsertAlbum. -/
def upsertAlbum (db : List AlbumRow) (d : AlbumData) (now : Nat) (freshId : String) :
    AlbumRow × List AlbumRow :=
  match db.find? (fun r => r.spotify_id == d.id) with
  | some old =>
    let updated : AlbumRow :=
      { old with name := d.name, album_type := d.album_type, total_tracks := d.total_tracks,
                 release_date := d.release_date,
                 release_date_precision := d.release_date_precision,
                 spotify_url := d.spotify_url, updated_at := now }
    (updated, db.map (fun r => if r.spotify_id == d.id then updated else r))
  | none =>
    let created : AlbumRow :=
      { id := freshId, spotify_id := d.id, name := d.name, album_type := d.album_type,
        total_tracks := d.total_tracks, release_date := d.release_date,
        release_date_precision := d.release_date_precision, spotify_url := d.spotify_url,
        created_at := now, updated_at := now }
    (created, db ++ [created])

/-- The fields of a Spotify track object that upsertTrack reads. -/
structure TrackData where
  id : String
  name : String
  track_number : Nat
  disc_number : Nat
  duration_ms : Nat
  popularity : Option Nat
  preview_url : Option String
  spotify_url : Option String
  isrc : Option String
  explicit : Bool
  available_markets : Option (List String)
deriving Repr, DecidableEq

/-- A row of the tracks table (prisma model Track). -/
structure TrackRow where
  id : String
  spotify_id : String
  name : String
  album_id : String
  track_number : Nat
  disc_number : Nat
  duration_ms : Nat
  popularity : Option Nat
  preview_url : Option String
  spotify_url : Option String
  isrc : Option String
  explicit : Bool
  available_markets : Option String
  created_at : Nat
  updated_at : Nat
deriving Repr, DecidableEq

/-- trackData.available_markets?.join(",") || null: absent stays null, and a
joined value that is the empty string (empty array) also becomes null. -/
def joinMarkets : Option (List String) → Option String
  | none => none
  | some l =>
    let s := String.intercalate "," l
    if s == "" then none else some s

/-- prisma.track.upsert keyed by spotify_id, exactly as in upsertTrack: the
update branch overwrites name, track_number, disc_number, duration_ms,
popularity, preview_url, spotify_url, isrc, explicit, available_markets and
updated_at — it does not mention album_id, which only the create branch sets. -/
def upsertTrack (db : List TrackRow) (d : TrackData) (albumId : String) (now : Nat)
    (freshId : String) : TrackRow × List TrackRow :=
  match db.find? (fun r => r.spotify_id == d.id) with
  | some old =>
    let updated : TrackRow :=
      { old with name := d.name, track_number := d.track_number, disc_number := d.disc_number,
                 duration_ms := d.duration_ms, popularity := d.popularity,
                 preview_url := d.preview_url, spotify_url := d.spotify_url, isrc := d.isrc,
                 explicit := d.explicit, available_markets := joinMarkets d.available_markets,
                 updated_at := now }
    (updated, db.map (fun r => if r.spotify_id == d.id then updated else r))
  | none =>
    let created : TrackRow :=
      { id := freshId, spotify_id := d.id, name := d.name, album_id := albumId,
        track_number := d.track_number, disc_number := d.disc_number,
        duration_ms := d.duration_ms, popularity := d.popularity,
        preview_url := d.preview_url, spotify_url := d.spotify_url, isrc := d.isrc,
        explicit := d.explicit, available_markets := joinMarkets d.available_markets,
        created_at := now, updated_at := now }
    (created, db ++ [created])

/-! ## Paged fetch — the pagination loop of fetchPlaylist,
src/spotify-seeder.js lines 122 to 158 -/

/-- An observable step of the pagination loop: a page request at a given
offset, or the fixed 1-second rate-limit delay (RATE_LIMIT_DELAY). -/
inductive FetchEvent where
  | request (offset : Nat)
  | delay
deriving Repr, DecidableEq

/-- The while-loop of fetchPlaylist: while offset < totalTracks, request the
page at `offset` (whose items are the oracle `pageItems offset`), append its
items, advance offset by `limit`, and sleep RATE_LIMIT_DELAY only when another
batch remains.  Returns the accumulated items and the event trace. -/
def fetchTracksLoop (pageItems : Nat → List α) (limit total offset : Nat) :
    List α × List FetchEvent :=
  if _h : offset < total ∧ 0 < limit then
    let rest := fetchTracksLoop pageItems limit total (offset + limit)
    (pageItems offset ++ rest.1,
      FetchEvent.request offset ::
        (if offset + limit < total then FetchEvent.delay :: rest.2 else rest.2))
  else ([], [])
termination_by total - offset
decreasing_by omega

/-- The event trace the specification describes for the paged fetch: one
request per batch at offsets 0, limit, 2*limit, ..., with exactly one delay
between consecutive requests, none before the first and none after the last.
Stated from the words of the specification, for comparison with
fetchTracksLoop. -/
def specPagedTrace (limit total : Nat) : List FetchEvent :=
  List.intersperse FetchEvent.delay
    ((List.range ((total + limit - 1) / limit)).map (fun i => FetchEvent.request (i * limit)))

/-- The items the specification describes for the paged fetch: the
concatenation, in source order, of every page of the collection. -/
def specPagedItems (pageItems : Nat → List α) (limit total : Nat) : List α :=
  ((List.range ((total + limit - 1) / limit)).map (fun i => pageItems (i * limit))).flatten

/-! ## Playlist-track relations — createPlaylistTrackRelations,
src/spotify-seeder.js lines 424 to 462 -/

/-- The fields of one playlist item that createPlaylistTrackRelations reads:
trackItem.track.id, trackItem.added_at, trackItem.added_by. -/
structure PlaylistItem where
  track_id : String
  added_at : String
  added_by_id : Option String
  added_by_name : Option String
deriving Repr, DecidableEq

/-- A row of the playlist_tracks table (prisma model PlaylistTrack), unique
on (playlist_id, track_id, position). -/
structure PlaylistTrackRow where
  playlist_id : String
  track_id : String
  position : Nat
  added_at : String
  added_by_id : Option String
  added_by_name : Option String
deriving Repr, DecidableEq

/-- prisma.track.findUnique({ where: { spotify_id } }). -/
def findTrackBySpotifyId (db : List TrackRow) (sid : String) : Option TrackRow :=
  db.find? (fun r => r.spotify_id == sid)

/-- prisma.playlistTrack.upsert keyed by the composite
(playlist_id, track_id, position); the update branch refreshes added_at,
added_by_id, added_by_name and rewrites position with the same value. -/
def upsertPlaylistTrack (db : List PlaylistTrackRow) (pid tid : String) (pos : Nat)
    (it : PlaylistItem) : List PlaylistTrackRow :=
  match db.find? (fun r => r.playlist_id == pid && r.track_id == tid && r.position == pos) with
  | some _ =>
    db.map (fun r =>
      if r.playlist_id == pid && r.track_id == tid && r.position == pos then
        { r with added_at := it.added_at, added_by_id := it.added_by_id,
                 added_by_name := it.added_by_name, position := pos }
      else r)
  | none => db ++ [⟨pid, tid, pos, it.added_at, it.added_by_id, it.added_by_name⟩]

/-- The indexed for-loop of createPlaylistTrackRelations: at index i, look the
item's track up by spotify_id; when found, upsert a playlist-track row at
position i + 1; when not found, silently do nothing and move on. -/
def linkLoop (trackDb : List TrackRow) (pid : String) :
    List PlaylistItem → Nat → List PlaylistTrackRow → List PlaylistTrackRow
  | [], _, db => db
  | it :: rest, i, db =>
    match findTrackBySpotifyId trackDb it.track_id with
    | some t => linkLoop trackDb pid rest (i + 1) (upsertPlaylistTrack db pid t.id (i + 1) it)
    | none => linkLoop trackDb pid rest (i + 1) db

/-- createPlaylistTrackRelations: run the indexed loop from i = 0. -/
def createPlaylistTrackRelations (trackDb : List TrackRow) (pid : String)
    (items : List PlaylistItem) (db : List PlaylistTrackRow) : List PlaylistTrackRow :=
  linkLoop trackDb pid items 0 db

/-- The row the loop body creates for a found track at a given position. -/
def mkPlaylistTrackRow (pid : String) (t : TrackRow) (pos : Nat) (it : PlaylistItem) :
    PlaylistTrackRow :=
  ⟨pid, t.id, pos, it.added_at, it.added_by_id, it.added_by_name⟩

/-- The rows the loop appends when started at index i on an empty-enough
table: one row per found item, at position index + 1, skipping missing ones. -/
def linkedRows (trackDb : List TrackRow) (pid : String) :
    List PlaylistItem → Nat → List PlaylistTrackRow
  | [], _ => []
  | it :: rest, i =>
    match findTrackBySpotifyId trackDb it.track_id with
    | some t => mkPlaylistTrackRow pid t (i + 1) it :: linkedRows trackDb pid rest (i + 1)
    | none => linkedRows trackDb pid rest (i + 1)

/-! ## Cover archiving — downloadAndStoreAlbumCover (src/spotify-seeder.js
lines 312 to 369 and src/album-cover-seeder.js lines 113 to 167) and
processAlbum (src/album-cover-seeder.js lines 191 to 236) -/

/-- One entry of albumData.images. -/
structure AlbumImage where
  url : String
  height : Nat
  width : Nat
deriving Repr, DecidableEq

/-- The field of the Spotify album object the cover code reads; images may be
absent (null) or an empty array, both meaning no cover is available. -/
structure AlbumCoverData where
  images : Option (List AlbumImage)
deriving Repr, DecidableEq

/-- A row of the media table (prisma model Media), unique on
(album_id, type). -/
structure MediaRow where
  album_id : String
  type : String
  filename : String
  blob_url : String
  spotify_url : String
  height : Nat
  width : Nat
  file_size : Nat
  mime_type : String
deriving Repr, DecidableEq

/-- An observable side effect of the cover-archiving sequence: the image GET,
or the blob-storage upload. -/
inductive CoverEvent where
  | download (url : String)
  | blobWrite (blobName : String)
deriving Repr, DecidableEq

/-- getImageExtension, identical in both seeders. -/
def getImageExtension (mimeType : String) : String :=
  if mimeType == "image/jpeg" || mimeType == "image/jpg" then "jpg"
  else if mimeType == "image/png" then "png"
  else if mimeType == "image/webp" then "webp"
  else "jpg"

/-- Whether the media table holds a row for (albumId, ty); this is both the
prisma.media.findFirst query of processAlbum and the unique-key test of
prisma.media.create. -/
def mediaExists (db : List MediaRow) (albumId ty : String) : Bool :=
  db.any (fun m => m.album_id == albumId && m.type == ty)

/-- downloadAndStoreAlbumCover of src/spotify-seeder.js.  Oracles: whether the
container client is configured, whether the image GET succeeds, the declared
content type and byte length of the response, and the generated uuid part of
the filename.  The whole body is wrapped in a catch that returns null, so a
failed download and a media create rejected by the (album_id, type) unique
constraint both surface as a null result; there is no lookup for an existing
media record anywhere before the download. -/
def downloadAndStoreAlbumCoverS (containerConfigured : Bool) (db : List MediaRow)
    (albumData : AlbumCoverData) (albumId : String) (downloadOk : Bool)
    (contentType : String) (bytesLen : Nat) (freshName : String) :
    Option MediaRow × List MediaRow × List CoverEvent :=
  if !containerConfigured then (none, db, [])
  else
    match albumData.images with
    | none => (none, db, [])
    | some [] => (none, db, [])
    | some (image :: _) =>
      if !downloadOk then (none, db, [CoverEvent.download image.url])
      else
        let filename := freshName ++ "." ++ getImageExtension contentType
        let blobName := "album-covers/" ++ filename
        let evs := [CoverEvent.download image.url, CoverEvent.blobWrite blobName]
        if mediaExists db albumId "album_cover" then
          (none, db, evs)
        else
          let m : MediaRow :=
            { album_id := albumId, type := "album_cover", filename := filename,
              blob_url := blobName, spotify_url := image.url, height := image.height,
              width := image.width, file_size := bytesLen, mime_type := contentType }
          (some m, db ++ [m], evs)

/-- downloadAndStoreAlbumCover of src/album-cover-seeder.js: same body, but
its catch rethrows, so a failed download or a rejected media create surfaces
as an error to the caller instead of a null result. -/
def downloadAndStoreAlbumCoverA (db : List MediaRow) (albumData : AlbumCoverData)
    (albumId : String) (downloadOk : Bool) (contentType : String) (bytesLen : Nat)
    (freshName : String) :
    Except String (Option MediaRow) × List MediaRow × List CoverEvent :=
  match albumData.images with
  | none => (Except.ok none, db, [])
  | some [] => (Except.ok none, db, [])
  | some (image :: _) =>
    if !downloadOk then
      (Except.error "download failed", db, [CoverEvent.download image.url])
    else
      let filename := freshName ++ "." ++ getImageExtension contentType
      let blobName := "album-covers/" ++ filename
      let evs := [CoverEvent.download image.url, CoverEvent.blobWrite blobName]
      if mediaExists db albumId "album_cover" then
        (Except.error "unique constraint violation", db, evs)
      else
        let m : MediaRow :=
          { album_id := albumId, type := "album_cover", filename := filename,
            blob_url := blobName, spotify_url := image.url, height := image.height,
            width := image.width, file_size := bytesLen, mime_type := contentType }
        (Except.ok (some m), db ++ [m], evs)

/-- The per-run counters of the album-cover seeder (this.stats). -/
structure CoverStats where
  total : Nat
  processed : Nat
  success : Nat
  skipped : Nat
  failed : Nat
  errors : List String
deriving Repr, DecidableEq

/-- The album row fields processAlbum reads from the database. -/
structure DbAlbum where
  id : String
  spotify_id : String
  name : String
deriving Repr, DecidableEq

/-- processAlbum of src/album-cover-seeder.js: check for an existing media
record first and skip when present; otherwise fetch the album from Spotify
(error, 404-as-none, or data), archive the cover, and fold every failure into
the stats inside the surrounding catch — processAlbum itself never raises. -/
def processAlbum (db : List MediaRow) (stats : CoverStats) (album : DbAlbum)
    (fetchResult : Except String (Option AlbumCoverData)) (downloadOk : Bool)
    (contentType : String) (bytesLen : Nat) (freshName : String) :
    List MediaRow × CoverStats × List CoverEvent :=
  if mediaExists db album.id "album_cover" then
    (db, { stats with skipped := stats.skipped + 1 }, [])
  else
    match fetchResult with
    | Except.error e =>
      (db, { stats with failed := stats.failed + 1,
                        errors := stats.errors ++ ["Album " ++ album.name ++ ": " ++ e] }, [])
    | Except.ok none =>
      (db, { stats with failed := stats.failed + 1,
                        errors := stats.errors ++
                          ["Album " ++ album.name ++ ": Spotify fetch failed"] }, [])
    | Except.ok (some spotifyAlbum) =>
      match downloadAndStoreAlbumCoverA db spotifyAlbum album.id downloadOk contentType
          bytesLen freshName with
      | (Except.error e, db2, evs) =>
        (db2, { stats with failed := stats.failed + 1,
                           errors := stats.errors ++ ["Album " ++ album.name ++ ": " ++ e] },
         evs)
      | (Except.ok none, db2, evs) =>
        (db2, { stats with failed := stats.failed + 1,
                           errors := stats.errors ++
                             ["Album " ++ album.name ++ ": No cover available"] }, evs)
      | (Except.ok (some _), db2, evs) =>
        (db2, { stats with success := stats.success + 1 }, evs)

/-! ## The per-record loop of processTracks, src/spotify-seeder.js
lines 476 to 542 -/

/-- The five fallible per-record steps of the loop body.  The cover step is
not among them: downloadAndStoreAlbumCover catches its own errors. -/
inductive StepKind where
  | artistUpsert
  | albumUpsert
  | albumArtistLink
  | trackUpsert
  | trackArtistLink
deriving Repr, DecidableEq

/-- One fetched track item, abstracted to what the loop control flow depends
on, plus an oracle `failAt` saying which step (if any) throws for this
record. -/
structure TrackRecord where
  name : String
  trackId : String
  artistIds : List String
  albumId : String
  failAt : Option StepKind
deriving Repr, DecidableEq

/-- The parts of processedData the loop mutates, plus the trace of cover
download attempts and of logged per-step errors. -/
structure RunState where
  artists : List String
  albums : List String
  processedTracks : List String
  coverAttempts : List String
  log : List (StepKind × String)
deriving Repr, DecidableEq

/-- JavaScript Map.set on the key set: insert the key if absent. -/
def mapSetKey (keys : List String) (k : String) : List String :=
  if keys.contains k then keys else keys ++ [k]

/-- Repeated Map.set for each artist of a record. -/
def unionKeys (keys : List String) (ks : List String) : List String :=
  ks.foldl mapSetKey keys

/-- One iteration of the processTracks loop body, in source order: artist
upserts; album upsert followed immediately by processedData.albums.set; then
the guard `if (!processedData.albums.has(albumKey))` deciding whether
downloadAndStoreAlbumCover is called; then album-artist linking, track upsert
(whose result is pushed onto processedData.tracks), and track-artist linking.
A throwing step logs its context and the error propagates (none of the steps
is wrapped in its own catch). -/
def processRecord (st : RunState) (r : TrackRecord) :
    RunState × Option (StepKind × String) :=
  if r.failAt = some StepKind.artistUpsert then
    ({ st with log := st.log ++ [(StepKind.artistUpsert, r.name)] },
     some (StepKind.artistUpsert, r.name))
  else
    let st1 := { st with artists := unionKeys st.artists r.artistIds }
    if r.failAt = some StepKind.albumUpsert then
      ({ st1 with log := st1.log ++ [(StepKind.albumUpsert, r.name)] },
       some (StepKind.albumUpsert, r.name))
    else
      let st2 := { st1 with albums := mapSetKey st1.albums r.albumId }
      let st3 :=
        if st2.albums.contains r.albumId then st2
        else { st2 with coverAttempts := st2.coverAttempts ++ [r.albumId] }
      if r.failAt = some StepKind.albumArtistLink then
        ({ st3 with log := st3.log ++ [(StepKind.albumArtistLink, r.name)] },
         some (StepKind.albumArtistLink, r.name))
      else if r.failAt = some StepKind.trackUpsert then
        ({ st3 with log := st3.log ++ [(StepKind.trackUpsert, r.name)] },
         some (StepKind.trackUpsert, r.name))
      else
        let st4 := { st3 with processedTracks := st3.processedTracks ++ [r.name] }
        if r.failAt = some StepKind.trackArtistLink then
          ({ st4 with log := st4.log ++ [(StepKind.trackArtistLink, r.name)] },
           some (StepKind.trackArtistLink, r.name))
        else (st4, none)

/-- The for-loop over the fetched records.  The whole loop sits inside one
try whose catch logs and rethrows, so the first error ends the loop: later
records are never reached. -/
def processTracksLoop : RunState → List TrackRecord → RunState × Option (StepKind × String)
  | st, [] => (st, none)
  | st, r :: rest =>
    match processRecord st r with
    | (st2, none) => processTracksLoop st2 rest
    | (st2, some e) => (st2, some e)

/-- processedData starts with empty maps and lists. -/
def initialRunState : RunState := ⟨[], [], [], [], []⟩

/-- The record-processing phase of processTracks (the playlist upsert that
precedes it has no bearing on the claims and is elided). -/
def processTracksRun (records : List TrackRecord) :
    RunState × Option (StepKind × String) :=
  processTracksLoop initialRunState records

/-! ## Run orchestration — main and seedDatabase, src/spotify-seeder.js
lines 562 to 652, and the page loop of fetchPlaylist they drive -/

/-- The environment variables main checks before doing anything. -/
structure EnvConfig where
  spotify_client_id : Option String
  spotify_client_secret : Option String
  database_url : Option String
deriving Repr, DecidableEq

/-- An observable effect of a whole run: an external network call, the
database connection test, an entity write, or one record fully processed. -/
inductive RunEvent where
  | network (what : String)
  | dbConnect
  | entityCreate (what : String)
  | recordProcessed (name : String)
deriving Repr, DecidableEq

/-- Exit status of a run: normal completion versus process.exit(1). -/
inductive Outcome where
  | success
  | exitFailure
deriving Repr, DecidableEq

/-- Whether an event writes an entity to the store. -/
def RunEvent.isEntityCreate : RunEvent → Bool
  | RunEvent.entityCreate _ => true
  | _ => false

/-- Whether an event marks a record as processed. -/
def RunEvent.isRecordProcessed : RunEvent → Bool
  | RunEvent.recordProcessed _ => true
  | _ => false

/-- The page requests of the fetchPlaylist while-loop with a failure oracle:
pages are requested in order 0, 1, 2, ...; if `failAt` names one of them its
request is issued and the error aborts the fetch (the remaining pages are
never requested). -/
def pageFetchEvents : Nat → Nat → Option Nat → List RunEvent × Bool
  | _, 0, _ => ([], true)
  | i, n + 1, failAt =>
    if failAt = some i then ([RunEvent.network ("page " ++ toString i)], false)
    else
      let rest := pageFetchEvents (i + 1) n failAt
      (RunEvent.network ("page " ++ toString i) :: rest.1, rest.2)

/-- main → seedDatabase → fetchPlaylist → processTracks, as a sequence of
guarded phases.  Configuration is checked before any connection or network
call; the token exchange precedes the playlist metadata request, which
precedes the page loop (`nPages` batches); only after every page succeeded
does processTracks upsert the playlist and run the per-record loop.  Any
failure surfaces as process.exit(1). -/
def mainRun (env : EnvConfig) (authOk : Bool) (metaOk : Bool) (nPages : Nat)
    (pageFailAt : Option Nat) (records : List TrackRecord) : Outcome × List RunEvent :=
  if !(strTruthy env.spotify_client_id) || !(strTruthy env.spotify_client_secret) then
    (Outcome.exitFailure, [])
  else if !(strTruthy env.database_url) then
    (Outcome.exitFailure, [])
  else
    let evToken : List RunEvent := [RunEvent.dbConnect, RunEvent.network "token"]
    if !authOk then (Outcome.exitFailure, evToken)
    else
      let evMeta := evToken ++ [RunEvent.network "playlist metadata"]
      if !metaOk then (Outcome.exitFailure, evMeta)
      else
        match pageFetchEvents 0 nPages pageFailAt with
        | (pageEvs, false) => (Outcome.exitFailure, evMeta ++ pageEvs)
        | (pageEvs, true) =>
          let evPlaylist := evMeta ++ pageEvs ++ [RunEvent.entityCreate "playlist"]
          match processTracksRun records with
          | (st, some _) =>
            (Outcome.exitFailure,
              evPlaylist ++ st.processedTracks.flatMap
                (fun n => [RunEvent.entityCreate ("track " ++ n), RunEvent.recordProcessed n]))
          | (st, none) =>
            (Outcome.success,
              evPlaylist ++ st.processedTracks.flatMap
                (fun n => [RunEvent.entityCreate ("track " ++ n), RunEvent.recordProcessed n]))

/-! ## Helper lemmas -/

theorem mapSetKey_mem_self (keys : List String) (k : String) : k ∈ mapSetKey keys k := by
  unfold mapSetKey
  split
  · next h => exact List.elem_iff.mp h
  · simp

theorem processRecord_coverAttempts (st : RunState) (r : TrackRecord) :
    (processRecord st r).1.coverAttempts = st.coverAttempts := by
  unfold processRecord
  repeat' split
  all_goals simp_all [mapSetKey_mem_self]

theorem processTracksLoop_coverAttempts :
    ∀ (records : List TrackRecord) (st : RunState),
    (processTracksLoop st records).1.coverAttempts = st.coverAttempts := by
  intro records
  induction records with
  | nil => intro st; rfl
  | cons r rest ih =>
    intro st
    have h := processRecord_coverAttempts st r
    rcases hp : processRecord st r with ⟨st2, e⟩
    rw [hp] at h
    simp only at h
    cases e with
    | none => simp [processTracksLoop, hp, ih st2, h]
    | some e2 => simp [processTracksLoop, hp, h]

theorem processRecord_ok (st : RunState) (r : TrackRecord) (h : r.failAt = none) :
    processRecord st r =
      ({ artists := unionKeys st.artists r.artistIds,
         albums := mapSetKey st.albums r.albumId,
         processedTracks := st.processedTracks ++ [r.name],
         coverAttempts := st.coverAttempts,
         log := st.log }, none) := by
  simp [processRecord, h, mapSetKey_mem_self]

theorem processRecord_fail (st : RunState) (r : TrackRecord) (s : StepKind)
    (h : r.failAt = some s) :
    (processRecord st r).2 = some (s, r.name) ∧
    (processRecord st r).1.log = st.log ++ [(s, r.name)] ∧
    (processRecord st r).1.processedTracks =
      st.processedTracks ++ (if s = StepKind.trackArtistLink then [r.name] else []) ∧
    (processRecord st r).1.coverAttempts = st.coverAttempts := by
  cases s <;> simp [processRecord, h, mapSetKey_mem_self]

theorem processTracksLoop_ok :
    ∀ (records : List TrackRecord), (∀ r ∈ records, r.failAt = none) →
    ∀ st : RunState,
    (processTracksLoop st records).2 = none ∧
    (processTracksLoop st records).1.processedTracks
      = st.processedTracks ++ records.map TrackRecord.name ∧
    (processTracksLoop st records).1.log = st.log := by
  intro records
  induction records with
  | nil => intro _ st; simp [processTracksLoop]
  | cons r rest ih =>
    intro h st
    have hr : r.failAt = none := h r (by simp)
    have hrest : ∀ q ∈ rest, q.failAt = none := fun q hq => h q (by simp [hq])
    have hrec := ih hrest
      { artists := unionKeys st.artists r.artistIds,
        albums := mapSetKey st.albums r.albumId,
        processedTracks := st.processedTracks ++ [r.name],
        coverAttempts := st.coverAttempts,
        log := st.log }
    simpa [processTracksLoop, processRecord_ok st r hr, List.append_assoc] using hrec

theorem processTracksLoop_abort :
    ∀ (records : List TrackRecord) (i : Nat) (r : TrackRecord) (s : StepKind),
      records[i]? = some r →
      (∀ j q, j < i → records[j]? = some q → q.failAt = none) →
      r.failAt = some s → ∀ st : RunState,
      (processTracksLoop st records).2 = some (s, r.name) ∧
      (processTracksLoop st records).1.log = st.log ++ [(s, r.name)] ∧
      (processTracksLoop st records).1.processedTracks =
        st.processedTracks ++ (records.take i).map TrackRecord.name ++
          (if s = StepKind.trackArtistLink then [r.name] else []) := by
  intro records
  induction records with
  | nil => intro i r s hi; simp at hi
  | cons a rest ih =>
    intro i r s hi hok hf st
    cases i with
    | zero =>
      have ha : a = r := by simpa using hi
      subst ha
      obtain ⟨h1, h2, h3, h4⟩ := processRecord_fail st a s hf
      rcases hp : processRecord st a with ⟨st2, e⟩
      rw [hp] at h1 h2 h3 h4
      simp only at h1 h2 h3 h4
      subst h1
      simp [processTracksLoop, hp, h2, h3]
    | succ i2 =>
      have ha : a.failAt = none := hok 0 a (Nat.succ_pos _) (by simp)
      have hi2 : rest[i2]? = some r := by simpa using hi
      have hok2 : ∀ j q, j < i2 → rest[j]? = some q → q.failAt = none := by
        intro j q hj hq
        exact hok (j + 1) q (by omega) (by simpa using hq)
      have hrec := ih i2 r s hi2 hok2 hf
        { artists := unionKeys st.artists a.artistIds,
          albums := mapSetKey st.albums a.albumId,
          processedTracks := st.processedTracks ++ [a.name],
          coverAttempts := st.coverAttempts,
          log := st.log }
      simpa [processTracksLoop, processRecord_ok st a ha, List.append_assoc] using hrec

/-! ## Claim theorems -/

/-- Claim C1, settled as a code bug: the spec (and the source comment at
src/spotify-seeder.js line 507) requires the cover-archiving step to be
attempted on the first encounter of each album id, but processedData.albums
is populated with the album key at line 504, before the membership test
`!processedData.albums.has(albumKey)` at line 509, so the test is false on
every iteration and downloadAndStoreAlbumCover is never called: the run for
a single track of album X performs zero cover attempts, and every run
performs zero cover attempts. -/
theorem c1_cover_archiving_never_attempted :
    (processTracksRun [⟨"t1", "s1", ["a1"], "X", none⟩]).1.coverAttempts = [] ∧
    ∀ records : List TrackRecord, (processTracksRun records).1.coverAttempts = [] := by
  constructor
  · rfl
  · intro records
    simpa [processTracksRun, initialRunState] using
      processTracksLoop_coverAttempts records initialRunState

/-- Claim C2 counterexample: with two fetched records where the first fails
at its artist upsert, processTracks ends with that error and the second
record is never processed — the loop does not continue past a bad record,
refuting the claim at this input. -/
theorem c2_counterexample :
    (processTracksRun
      [⟨"bad", "s1", ["a1"], "X", some StepKind.artistUpsert⟩,
       ⟨"good", "s2", ["a2"], "Y", none⟩]).2 = some (StepKind.artistUpsert, "bad") ∧
    (processTracksRun
      [⟨"bad", "s1", ["a1"], "X", some StepKind.artistUpsert⟩,
       ⟨"good", "s2", ["a2"], "Y", none⟩]).1.processedTracks = [] := ⟨rfl, rfl⟩

/-- Claim C2 as amended: in processTracks an error at any of the five
per-record steps is logged with the record context and then propagates out of
the loop, aborting the run: the records before the failing one are fully
processed, the failing one contributes its name only when the failure is at
the final track-artist linking step (the track upsert already pushed it), and
the records after it are never processed. -/
theorem c2_per_record_error_aborts_run (records : List TrackRecord) (i : Nat)
    (r : TrackRecord) (s : StepKind) (hi : records[i]? = some r)
    (hbefore : ∀ j q, j < i → records[j]? = some q → q.failAt = none)
    (hfail : r.failAt = some s) :
    (processTracksRun records).2 = some (s, r.name) ∧
    (processTracksRun records).1.log = [(s, r.name)] ∧
    (processTracksRun records).1.processedTracks =
      (records.take i).map TrackRecord.name ++
        (if s = StepKind.trackArtistLink then [r.name] else []) := by
  have h := processTracksLoop_abort records i r s hi hbefore hfail initialRunState
  simpa [processTracksRun, initialRunState] using h

/-- Witness for c2_per_record_error_aborts_run at a concrete two-record run. -/
theorem c2_per_record_error_aborts_run_witness :
    (processTracksRun
      [⟨"bad", "s1", ["a1"], "X", some StepKind.albumUpsert⟩,
       ⟨"good", "s2", ["a2"], "Y", none⟩]).2 = some (StepKind.albumUpsert, "bad") ∧
    (processTracksRun
      [⟨"bad", "s1", ["a1"], "X", some StepKind.albumUpsert⟩,
       ⟨"good", "s2", ["a2"], "Y", none⟩]).1.processedTracks = [] := by
  have h := c2_per_record_error_aborts_run
    [⟨"bad", "s1", ["a1"], "X", some StepKind.albumUpsert⟩,
     ⟨"good", "s2", ["a2"], "Y", none⟩] 0
    ⟨"bad", "s1", ["a1"], "X", some StepKind.albumUpsert⟩ StepKind.albumUpsert
    (by simp) (fun j q hj _ => absurd hj (Nat.not_lt_zero j)) rfl
  exact ⟨h.1, by simpa using h.2.2⟩

/-- Claim C3 counterexample: invoking the playlist seeder's
downloadAndStoreAlbumCover for an album that already has an album_cover
media record still performs the image download and the blob-store write
(returning null only because the media create is rejected by the
(album_id, type) unique key), refuting the claim that an existing record
makes it return null immediately with no download or store-write. -/
theorem c3_counterexample :
    downloadAndStoreAlbumCoverS true
        [⟨"A", "album_cover", "f.jpg", "u", "s", 1, 1, 1, "m"⟩]
        ⟨some [⟨"img", 640, 640⟩]⟩ "A" true "image/png" 10 "fresh"
      = (none, [⟨"A", "album_cover", "f.jpg", "u", "s", 1, 1, 1, "m"⟩],
         [CoverEvent.download "img", CoverEvent.blobWrite "album-covers/fresh.png"]) ∧
    [CoverEvent.download "img", CoverEvent.blobWrite "album-covers/fresh.png"] ≠
      ([] : List CoverEvent) := by
  refine ⟨rfl, by simp⟩

/-- Claim C3 as amended: only the standalone album-cover seeder checks for an
existing media record, and it does so in processAlbum, which skips (counting
it) with no download or store-write when a record exists; the playlist
seeder's downloadAndStoreAlbumCover has no such check, and when a record
already exists it still downloads and uploads, returning null with the store
unchanged only because the media create hits the (album_id, type) unique
key. -/
theorem c3_skip_check_location :
    (∀ (db : List MediaRow) (stats : CoverStats) (album : DbAlbum)
       (fetchResult : Except String (Option AlbumCoverData)) (dOk : Bool)
       (ct : String) (bl : Nat) (fn : String),
       mediaExists db album.id "album_cover" = true →
       processAlbum db stats album fetchResult dOk ct bl fn
         = (db, { stats with skipped := stats.skipped + 1 }, [])) ∧
    (∀ (db : List MediaRow) (albumData : AlbumCoverData) (albumId : String)
       (image : AlbumImage) (rest : List AlbumImage) (ct : String) (bl : Nat)
       (fn : String),
       mediaExists db albumId "album_cover" = true →
       albumData.images = some (image :: rest) →
       downloadAndStoreAlbumCoverS true db albumData albumId true ct bl fn
         = (none, db,
            [CoverEvent.download image.url,
             CoverEvent.blobWrite ("album-covers/" ++ (fn ++ "." ++ getImageExtension ct))])) := by
  constructor
  · intro db stats album fetchResult dOk ct bl fn h
    simp [processAlbum, h]
  · intro db albumData albumId image rest ct bl fn h himg
    simp [downloadAndStoreAlbumCoverS, himg, h]

/-- Witness for c3_skip_check_location at concrete inputs. -/
theorem c3_skip_check_location_witness :
    processAlbum [⟨"A", "album_cover", "f.jpg", "u", "s", 1, 1, 1, "m"⟩]
        ⟨5, 3, 1, 1, 1, []⟩ ⟨"A", "spA", "AlbumA"⟩ (Except.ok none) true "image/png" 10 "x"
      = ([⟨"A", "album_cover", "f.jpg", "u", "s", 1, 1, 1, "m"⟩],
         ⟨5, 3, 1, 2, 1, []⟩, []) ∧
    downloadAndStoreAlbumCoverS true [⟨"A", "album_cover", "f.jpg", "u", "s", 1, 1, 1, "m"⟩]
        ⟨some [⟨"img", 640, 640⟩]⟩ "A" true "image/jpeg" 10 "x"
      = (none, [⟨"A", "album_cover", "f.jpg", "u", "s", 1, 1, 1, "m"⟩],
         [CoverEvent.download "img", CoverEvent.blobWrite "album-covers/x.jpg"]) := by
  constructor
  · exact c3_skip_check_location.1 _ ⟨5, 3, 1, 1, 1, []⟩ ⟨"A", "spA", "AlbumA"⟩
      (Except.ok none) true "image/png" 10 "x" (by rfl)
  · exact c3_skip_check_location.2 _ ⟨some [⟨"img", 640, 640⟩]⟩ "A" ⟨"img", 640, 640⟩ []
      "image/jpeg" 10 "x" (by rfl) (by rfl)

/-- Claim C7: getAccessToken returns the cached token with no network
exchange whenever a (nonempty) cached token exists and the current time is
strictly before the cached expiry; otherwise it performs the
client-credential exchange and records the new expiry as the current time
plus the returned expires_in duration (seconds, stored in milliseconds). -/
theorem c7_token_cache (st : TokenState) (now : Nat)
    (exchange : Except String TokenResponse) :
    (∀ t e, st.accessToken = some t → t ≠ "" → st.tokenExpiry = some e → now < e →
       getAccessToken st now exchange = Except.ok (t, st, false)) ∧
    (∀ r, (strTruthy st.accessToken && natTruthy st.tokenExpiry
            && decide (now < st.tokenExpiry.getD 0)) = false →
       exchange = Except.ok r →
       getAccessToken st now exchange =
         Except.ok (r.access_token,
           { accessToken := some r.access_token,
             tokenExpiry := some (now + r.expires_in * 1000) }, true)) := by
  constructor
  · intro t e h1 h2 h3 h4
    have he : ¬(e = 0) := by omega
    simp [getAccessToken, strTruthy, natTruthy, h1, h2, h3, h4, he]
  · intro r hguard hex
    simp [getAccessToken, hguard, hex]

/-- Witness for c7_token_cache: a valid cache hit at time 50 with expiry 100,
and a cache miss from the initial null state. -/
theorem c7_token_cache_witness :
    getAccessToken ⟨some "tok", some 100⟩ 50 (Except.error "unused")
      = Except.ok ("tok", ⟨some "tok", some 100⟩, false) ∧
    getAccessToken ⟨none, none⟩ 50 (Except.ok ⟨"new", 3600⟩)
      = Except.ok ("new", ⟨some "new", some (50 + 3600 * 1000)⟩, true) := by
  constructor
  · exact (c7_token_cache ⟨some "tok", some 100⟩ 50 (Except.error "unused")).1
      "tok" 100 rfl (by decide) rfl (by decide)
  · exact (c7_token_cache ⟨none, none⟩ 50 (Except.ok ⟨"new", 3600⟩)).2
      ⟨"new", 3600⟩ (by rfl) rfl

/-- Claim C8 counterexample: in the album-cover seeder a failed download
makes downloadAndStoreAlbumCover raise (its catch rethrows); the caller gets
an error, not a null media result, refuting the claim for that module. -/
theorem c8_counterexample :
    (downloadAndStoreAlbumCoverA [] ⟨some [⟨"img", 640, 640⟩]⟩ "A" false "image/png" 10
        "fresh").1 = Except.error "download failed" ∧
    (downloadAndStoreAlbumCoverA [] ⟨some [⟨"img", 640, 640⟩]⟩ "A" false "image/png" 10
        "fresh").1 ≠ Except.ok none := by
  refine ⟨rfl, by simp [downloadAndStoreAlbumCoverA]⟩

/-- Claim C8 as amended: a cover download failure never aborts the rest of
the import, but the two modules differ in shape: the playlist seeder's
downloadAndStoreAlbumCover catches the failure and returns null with the
store unchanged; the album-cover seeder's version rethrows, and its caller
processAlbum catches the error, counts it in the failure stats with the
album context, and returns normally so the per-album loop continues. -/
theorem c8_cover_failure_nonfatal :
    (∀ (db : List MediaRow) (albumData : AlbumCoverData) (albumId : String)
       (image : AlbumImage) (rest : List AlbumImage) (ct : String) (bl : Nat)
       (fn : String),
       albumData.images = some (image :: rest) →
       downloadAndStoreAlbumCoverS true db albumData albumId false ct bl fn
         = (none, db, [CoverEvent.download image.url])) ∧
    (∀ (db : List MediaRow) (albumData : AlbumCoverData) (albumId : String)
       (image : AlbumImage) (rest : List AlbumImage) (ct : String) (bl : Nat)
       (fn : String),
       albumData.images = some (image :: rest) →
       (downloadAndStoreAlbumCoverA db albumData albumId false ct bl fn).1
         = Except.error "download failed") ∧
    (∀ (db : List MediaRow) (stats : CoverStats) (album : DbAlbum)
       (albumData : AlbumCoverData) (image : AlbumImage) (rest : List AlbumImage)
       (ct : String) (bl : Nat) (fn : String),
       mediaExists db album.id "album_cover" = false →
       albumData.images = some (image :: rest) →
       processAlbum db stats album (Except.ok (some albumData)) false ct bl fn
         = (db, { stats with failed := stats.failed + 1,
                             errors := stats.errors ++
                               ["Album " ++ album.name ++ ": download failed"] },
            [CoverEvent.download image.url])) := by
  refine ⟨?_, ?_, ?_⟩
  · intro db albumData albumId image rest ct bl fn himg
    simp [downloadAndStoreAlbumCoverS, himg]
  · intro db albumData albumId image rest ct bl fn himg
    simp [downloadAndStoreAlbumCoverA, himg]
  · intro db stats album albumData image rest ct bl fn hmedia himg
    simp [processAlbum, hmedia, downloadAndStoreAlbumCoverA, himg]
    have hs : (": " ++ "download failed" : String) = ": download failed" := by decide
    rw [String.append_assoc, hs]

/-- Witness for c8_cover_failure_nonfatal at concrete inputs. -/
theorem c8_cover_failure_nonfatal_witness :
    downloadAndStoreAlbumCoverS true [] ⟨some [⟨"img", 640, 640⟩]⟩ "A" false "image/png" 10 "x"
      = (none, [], [CoverEvent.download "img"]) ∧
    processAlbum [] ⟨1, 0, 0, 0, 0, []⟩ ⟨"A", "spA", "AlbumA"⟩
        (Except.ok (some ⟨some [⟨"img", 640, 640⟩]⟩)) false "image/png" 10 "x"
      = ([], ⟨1, 0, 0, 0, 1, ["Album AlbumA: download failed"]⟩,
         [CoverEvent.download "img"]) := by
  constructor
  · exact c8_cover_failure_nonfatal.1 [] ⟨some [⟨"img", 640, 640⟩]⟩ "A" ⟨"img", 640, 640⟩ []
      "image/png" 10 "x" (by rfl)
  · exact c8_cover_failure_nonfatal.2.2 [] ⟨1, 0, 0, 0, 0, []⟩ ⟨"A", "spA", "AlbumA"⟩
      ⟨some [⟨"img", 640, 640⟩]⟩ ⟨"img", 640, 640⟩ [] "image/png" 10 "x" (by rfl) (by rfl)

theorem find?_map_ite {α : Type} (proj : α → String) (key : String) (u : α)
    (hu : proj u = key) :
    ∀ db : List α, (db.find? (fun r => proj r == key)).isSome = true →
    (db.map (fun r => if proj r == key then u else r)).find? (fun r => proj r == key)
      = some u := by
  intro db
  induction db with
  | nil => simp
  | cons a rest ih =>
    intro h
    by_cases ha : proj a = key
    · simp [List.find?_cons, ha, hu]
    · simp only [List.map_cons]
      rw [if_neg (by simp [ha])]
      rw [List.find?_cons_of_neg _ (by simp [ha])]
      rw [List.find?_cons_of_neg _ (by simp [ha])] at h
      exact ih h

/-- Claim C5 counterexample: two upsertTrack calls with the same external
track id but different owning albums leave the stored track bound to the
first album id — the owning album reference is not overwritten on update,
refuting the claim at this input. -/
theorem c5_counterexample :
    ((upsertTrack
        (upsertTrack [] ⟨"t", "nm", 1, 1, 5, none, none, none, none, false, none⟩
            "A1" 0 "x1").2
        ⟨"t", "nm", 1, 1, 5, none, none, none, none, false, none⟩ "A2" 7 "x2").1.album_id
      = "A1") ∧
    ("A1" : String) ≠ "A2" := ⟨rfl, by decide⟩

/-- Claim C5 as amended: each upsert is keyed by the external id; when no
record exists, a record is created with all incoming fields and both
timestamps set to now; when one exists, every mutable field is overwritten
with the incoming value, the update timestamp is set to now, and the create
timestamp (and, for a track, the owning album reference, which only the
create branch sets) is left unchanged; after the update the record found
under the external id is exactly the returned one, and two calls against an
initially empty store with the same external id yield exactly one stored
record carrying the second call's mutable values, the first call's create
timestamp, and — for a track — the first call's album id. -/
theorem c5_upsert_semantics :
    (∀ (db : List ArtistRow) (d : ArtistData) (now : Nat) (fid : String),
       db.find? (fun r => r.spotify_id == d.id) = none →
       upsertArtist db d now fid =
         (⟨fid, d.id, d.name, d.spotify_url, d.popularity, now, now⟩,
          db ++ [⟨fid, d.id, d.name, d.spotify_url, d.popularity, now, now⟩])) ∧
    (∀ (db : List ArtistRow) (d : ArtistData) (now : Nat) (fid : String)
       (old : ArtistRow), db.find? (fun r => r.spotify_id == d.id) = some old →
       (upsertArtist db d now fid).1 =
         { old with name := d.name, spotify_url := d.spotify_url,
                    popularity := d.popularity, updated_at := now } ∧
       (upsertArtist db d now fid).1.created_at = old.created_at ∧
       (upsertArtist db d now fid).2.find? (fun r => r.spotify_id == d.id)
         = some (upsertArtist db d now fid).1) ∧
    (∀ (db : List AlbumRow) (d : AlbumData) (now : Nat) (fid : String),
       db.find? (fun r => r.spotify_id == d.id) = none →
       upsertAlbum db d now fid =
         (⟨fid, d.id, d.name, d.album_type, d.total_tracks, d.release_date,
           d.release_date_precision, d.spotify_url, now, now⟩,
          db ++ [⟨fid, d.id, d.name, d.album_type, d.total_tracks, d.release_date,
                  d.release_date_precision, d.spotify_url, now, now⟩])) ∧
    (∀ (db : List AlbumRow) (d : AlbumData) (now : Nat) (fid : String)
       (old : AlbumRow), db.find? (fun r => r.spotify_id == d.id) = some old →
       (upsertAlbum db d now fid).1 =
         { old with name := d.name, album_type := d.album_type,
                    total_tracks := d.total_tracks, release_date := d.release_date,
                    release_date_precision := d.release_date_precision,
                    spotify_url := d.spotify_url, updated_at := now } ∧
       (upsertAlbum db d now fid).1.created_at = old.created_at ∧
       (upsertAlbum db d now fid).2.find? (fun r => r.spotify_id == d.id)
         = some (upsertAlbum db d now fid).1) ∧
    (∀ (db : List TrackRow) (d : TrackData) (albumId : String) (now : Nat)
       (fid : String), db.find? (fun r => r.spotify_id == d.id) = none →
       upsertTrack db d albumId now fid =
         (⟨fid, d.id, d.name, albumId, d.track_number, d.disc_number, d.duration_ms,
           d.popularity, d.preview_url, d.spotify_url, d.isrc, d.explicit,
           joinMarkets d.available_markets, now, now⟩,
          db ++ [⟨fid, d.id, d.name, albumId, d.track_number, d.disc_number, d.duration_ms,
                  d.popularity, d.preview_url, d.spotify_url, d.isrc, d.explicit,
                  joinMarkets d.available_markets, now, now⟩])) ∧
    (∀ (db : List TrackRow) (d : TrackData) (albumId : String) (now : Nat)
       (fid : String) (old : TrackRow),
       db.find? (fun r => r.spotify_id == d.id) = some old →
       (upsertTrack db d albumId now fid).1 =
         { old with name := d.name, track_number := d.track_number,
                    disc_number := d.disc_number, duration_ms := d.duration_ms,
                    popularity := d.popularity, preview_url := d.preview_url,
                    spotify_url := d.spotify_url, isrc := d.isrc, explicit := d.explicit,
                    available_markets := joinMarkets d.available_markets,
                    updated_at := now } ∧
       (upsertTrack db d albumId now fid).1.created_at = old.created_at ∧
       (upsertTrack db d albumId now fid).1.album_id = old.album_id ∧
       (upsertTrack db d albumId now fid).2.find? (fun r => r.spotify_id == d.id)
         = some (upsertTrack db d albumId now fid).1) ∧
    (∀ (d1 d2 : ArtistData) (n1 n2 : Nat) (f1 f2 : String), d2.id = d1.id →
       (upsertArtist (upsertArtist [] d1 n1 f1).2 d2 n2 f2).2
         = [⟨f1, d1.id, d2.name, d2.spotify_url, d2.popularity, n1, n2⟩]) ∧
    (∀ (d1 d2 : TrackData) (a1 a2 : String) (n1 n2 : Nat) (f1 f2 : String),
       d2.id = d1.id →
       (upsertTrack (upsertTrack [] d1 a1 n1 f1).2 d2 a2 n2 f2).2
         = [⟨f1, d1.id, d2.name, a1, d2.track_number, d2.disc_number, d2.duration_ms,
             d2.popularity, d2.preview_url, d2.spotify_url, d2.isrc, d2.explicit,
             joinMarkets d2.available_markets, n1, n2⟩]) := by
  refine ⟨?_, ?_, ?_, ?_, ?_, ?_, ?_, ?_⟩
  · intro db d now fid h
    simp [upsertArtist, h]
  · intro db d now fid old h
    have hkey : old.spotify_id = d.id := by simpa using List.find?_some h
    have hsome : (db.find? (fun r => r.spotify_id == d.id)).isSome = true := by simp [h]
    refine ⟨by simp [upsertArtist, h], by simp [upsertArtist, h], ?_⟩
    simp only [upsertArtist, h]
    exact find?_map_ite (fun r => r.spotify_id) d.id
      { old with name := d.name, spotify_url := d.spotify_url,
                 popularity := d.popularity, updated_at := now } hkey db hsome
  · intro db d now fid h
    simp [upsertAlbum, h]
  · intro db d now fid old h
    have hkey : old.spotify_id = d.id := by simpa using List.find?_some h
    have hsome : (db.find? (fun r => r.spotify_id == d.id)).isSome = true := by simp [h]
    refine ⟨by simp [upsertAlbum, h], by simp [upsertAlbum, h], ?_⟩
    simp only [upsertAlbum, h]
    exact find?_map_ite (fun r => r.spotify_id) d.id
      { old with name := d.name, album_type := d.album_type,
                 total_tracks := d.total_tracks, release_date := d.release_date,
                 release_date_precision := d.release_date_precision,
                 spotify_url := d.spotify_url, updated_at := now } hkey db hsome
  · intro db d albumId now fid h
    simp [upsertTrack, h]
  · intro db d albumId now fid old h
    have hkey : old.spotify_id = d.id := by simpa using List.find?_some h
    have hsome : (db.find? (fun r => r.spotify_id == d.id)).isSome = true := by simp [h]
    refine ⟨by simp [upsertTrack, h], by simp [upsertTrack, h],
            by simp [upsertTrack, h], ?_⟩
    simp only [upsertTrack, h]
    exact find?_map_ite (fun r => r.spotify_id) d.id
      { old with name := d.name, track_number := d.track_number,
                 disc_number := d.disc_number, duration_ms := d.duration_ms,
                 popularity := d.popularity, preview_url := d.preview_url,
                 spotify_url := d.spotify_url, isrc := d.isrc, explicit := d.explicit,
                 available_markets := joinMarkets d.available_markets,
                 updated_at := now } hkey db hsome
  · intro d1 d2 n1 n2 f1 f2 h
    simp [upsertArtist, List.find?_cons, h]
  · intro d1 d2 a1 a2 n1 n2 f1 f2 h
    simp [upsertTrack, List.find?_cons, h]

/-- Witness for c5_upsert_semantics: a create from the empty store and a
two-call track sequence at concrete inputs. -/
theorem c5_upsert_semantics_witness :
    upsertArtist [] ⟨"a1", "Artist", none, some 5⟩ 3 "loc1"
      = (⟨"loc1", "a1", "Artist", none, some 5, 3, 3⟩,
         [⟨"loc1", "a1", "Artist", none, some 5, 3, 3⟩]) ∧
    (upsertTrack
        (upsertTrack [] ⟨"t", "nm", 1, 1, 5, none, none, none, none, false, none⟩
            "A1" 0 "x1").2
        ⟨"t", "nm2", 1, 1, 5, none, none, none, none, false, none⟩ "A2" 7 "x2").2
      = [⟨"x1", "t", "nm2", "A1", 1, 1, 5, none, none, none, none, false, none, 0, 7⟩] := by
  constructor
  · exact c5_upsert_semantics.1 [] ⟨"a1", "Artist", none, some 5⟩ 3 "loc1" rfl
  · exact c5_upsert_semantics.2.2.2.2.2.2.2
      ⟨"t", "nm", 1, 1, 5, none, none, none, none, false, none⟩
      ⟨"t", "nm2", 1, 1, 5, none, none, none, none, false, none⟩
      "A1" "A2" 0 7 "x1" "x2" rfl

theorem upsertPlaylistTrack_fresh (db : List PlaylistTrackRow) (pid tid : String)
    (pos : Nat) (it : PlaylistItem) (h : ∀ r ∈ db, r.position ≠ pos) :
    upsertPlaylistTrack db pid tid pos it
      = db ++ [⟨pid, tid, pos, it.added_at, it.added_by_id, it.added_by_name⟩] := by
  have hf : db.find?
      (fun r => r.playlist_id == pid && r.track_id == tid && r.position == pos) = none := by
    rw [List.find?_eq_none]
    intro x hx
    simp only [Bool.and_eq_true, beq_iff_eq]
    intro hc
    exact h x hx hc.2
  simp [upsertPlaylistTrack, hf]

theorem linkLoop_eq (trackDb : List TrackRow) (pid : String) :
    ∀ (items : List PlaylistItem) (i : Nat) (db : List PlaylistTrackRow),
      (∀ r ∈ db, r.position ≤ i) →
      linkLoop trackDb pid items i db = db ++ linkedRows trackDb pid items i := by
  intro items
  induction items with
  | nil => intro i db _; simp [linkLoop, linkedRows]
  | cons it rest ih =>
    intro i db hdb
    cases hfind : findTrackBySpotifyId trackDb it.track_id with
    | none =>
      simp only [linkLoop, linkedRows, hfind]
      exact ih (i + 1) db (fun r hr => Nat.le_succ_of_le (hdb r hr))
    | some t =>
      simp only [linkLoop, linkedRows, hfind]
      rw [upsertPlaylistTrack_fresh db pid t.id (i + 1) it
            (fun r hr => by have := hdb r hr; omega)]
      have hinv : ∀ r ∈ db ++
          [(⟨pid, t.id, i + 1, it.added_at, it.added_by_id, it.added_by_name⟩ :
            PlaylistTrackRow)], r.position ≤ i + 1 := by
        intro r hr
        rcases List.mem_append.mp hr with h1 | h1
        · exact Nat.le_succ_of_le (hdb r h1)
        · simp at h1; subst h1; simp
      rw [ih (i + 1) _ hinv]
      simp [mkPlaylistTrackRow, List.append_assoc]

theorem linkedRows_positions (trackDb : List TrackRow) (pid : String) :
    ∀ (items : List PlaylistItem) (i : Nat),
      (∀ it ∈ items, (findTrackBySpotifyId trackDb it.track_id).isSome = true) →
      (linkedRows trackDb pid items i).map PlaylistTrackRow.position
        = List.range' (i + 1) items.length := by
  intro items
  induction items with
  | nil => intro i _; simp [linkedRows]
  | cons it rest ih =>
    intro i h
    rcases Option.isSome_iff_exists.mp (h it (by simp)) with ⟨t, ht⟩
    simp only [linkedRows, ht, List.map_cons, mkPlaylistTrackRow, List.length_cons]
    rw [List.range'_succ]
    rw [ih (i + 1) (fun q hq => h q (by simp [hq]))]

theorem linkedRows_tracks (trackDb : List TrackRow) (pid : String) :
    ∀ (items : List PlaylistItem) (i : Nat),
      (∀ it ∈ items, (findTrackBySpotifyId trackDb it.track_id).isSome = true) →
      (linkedRows trackDb pid items i).map (fun r => some r.track_id)
        = items.map (fun it => (findTrackBySpotifyId trackDb it.track_id).map TrackRow.id) := by
  intro items
  induction items with
  | nil => intro i _; simp [linkedRows]
  | cons it rest ih =>
    intro i h
    rcases Option.isSome_iff_exists.mp (h it (by simp)) with ⟨t, ht⟩
    simp only [linkedRows, ht, List.map_cons, mkPlaylistTrackRow, Option.map_some]
    rw [ih (i + 1) (fun q hq => h q (by simp [hq]))]
    simp [ht]

theorem linkedRows_pid (trackDb : List TrackRow) (pid : String) :
    ∀ (items : List PlaylistItem) (i : Nat) (r : PlaylistTrackRow),
      r ∈ linkedRows trackDb pid items i → r.playlist_id = pid := by
  intro items
  induction items with
  | nil => intro i r hr; simp [linkedRows] at hr
  | cons it rest ih =>
    intro i r hr
    cases hfind : findTrackBySpotifyId trackDb it.track_id with
    | none =>
      simp only [linkedRows, hfind] at hr
      exact ih (i + 1) r hr
    | some t =>
      simp only [linkedRows, hfind] at hr
      rcases List.mem_cons.mp hr with h1 | h1
      · subst h1; rfl
      · exact ih (i + 1) r h1

theorem linkedRows_mem_of_found (trackDb : List TrackRow) (pid : String) :
    ∀ (items : List PlaylistItem) (i j : Nat) (it : PlaylistItem) (t : TrackRow),
      items[j]? = some it → findTrackBySpotifyId trackDb it.track_id = some t →
      mkPlaylistTrackRow pid t (i + j + 1) it ∈ linkedRows trackDb pid items i := by
  intro items
  induction items with
  | nil => intro i j it t hj; simp at hj
  | cons a rest ih =>
    intro i j it t hj ht
    cases j with
    | zero =>
      have ha : a = it := by simpa using hj
      subst ha
      simp [linkedRows, ht]
    | succ j2 =>
      have hj2 : rest[j2]? = some it := by simpa using hj
      have hmem := ih (i + 1) j2 it t hj2 ht
      have harith : i + (j2 + 1) + 1 = i + 1 + j2 + 1 := by omega
      rw [harith]
      cases hfind : findTrackBySpotifyId trackDb a.track_id with
      | none => simpa [linkedRows, hfind] using hmem
      | some t2 =>
        simp only [linkedRows, hfind]
        exact List.mem_cons_of_mem _ hmem

theorem linkedRows_mem_inv (trackDb : List TrackRow) (pid : String) :
    ∀ (items : List PlaylistItem) (i : Nat) (r : PlaylistTrackRow),
      r ∈ linkedRows trackDb pid items i →
      ∃ j it t, items[j]? = some it ∧
        findTrackBySpotifyId trackDb it.track_id = some t ∧
        r = mkPlaylistTrackRow pid t (i + j + 1) it := by
  intro items
  induction items with
  | nil => intro i r hr; simp [linkedRows] at hr
  | cons a rest ih =>
    intro i r hr
    cases hfind : findTrackBySpotifyId trackDb a.track_id with
    | none =>
      simp only [linkedRows, hfind] at hr
      obtain ⟨j, it, t, hj, ht, hre⟩ := ih (i + 1) r hr
      refine ⟨j + 1, it, t, by simpa using hj, ht, ?_⟩
      have harith : i + (j + 1) + 1 = i + 1 + j + 1 := by omega
      rw [harith]; exact hre
    | some t2 =>
      simp only [linkedRows, hfind] at hr
      rcases List.mem_cons.mp hr with h1 | h1
      · refine ⟨0, a, t2, by simp, hfind, ?_⟩
        simpa using h1
      · obtain ⟨j, it, t, hj, ht, hre⟩ := ih (i + 1) r h1
        refine ⟨j + 1, it, t, by simpa using hj, ht, ?_⟩
        have harith : i + (j + 1) + 1 = i + 1 + j + 1 := by omega
        rw [harith]; exact hre

/-- Claim C4: when every item of the track sequence has a stored track,
createPlaylistTrackRelations started on an empty playlist-track table
produces rows whose positions are exactly 1..N in source order, whose tracks
are the stored tracks of the corresponding source items in the same order
(so a track id occurring at two source positions yields two rows), all under
the given playlist. -/
theorem c4_playlist_positions (trackDb : List TrackRow) (pid : String)
    (items : List PlaylistItem)
    (h : ∀ it ∈ items, (findTrackBySpotifyId trackDb it.track_id).isSome = true) :
    ((createPlaylistTrackRelations trackDb pid items []).map PlaylistTrackRow.position
        = List.range' 1 items.length) ∧
    ((createPlaylistTrackRelations trackDb pid items []).map (fun r => some r.track_id)
        = items.map (fun it => (findTrackBySpotifyId trackDb it.track_id).map TrackRow.id)) ∧
    (∀ r ∈ createPlaylistTrackRelations trackDb pid items [], r.playlist_id = pid) := by
  have he : createPlaylistTrackRelations trackDb pid items []
      = linkedRows trackDb pid items 0 := by
    simpa [createPlaylistTrackRelations] using linkLoop_eq trackDb pid items 0 [] (by simp)
  rw [he]
  refine ⟨?_, ?_, ?_⟩
  · simpa using linkedRows_positions trackDb pid items 0 h
  · exact linkedRows_tracks trackDb pid items 0 h
  · intro r hr; exact linkedRows_pid trackDb pid items 0 r hr

/-- Witness for c4_playlist_positions: three items, all found, with one track
id appearing at two different positions. -/
theorem c4_playlist_positions_witness :
    ((createPlaylistTrackRelations
        [⟨"loc1", "sp1", "n1", "al", 1, 1, 100, none, none, none, none, false, none, 0, 0⟩,
         ⟨"loc2", "sp2", "n2", "al", 2, 1, 100, none, none, none, none, false, none, 0, 0⟩]
        "P" [⟨"sp1", "d1", none, none⟩, ⟨"sp2", "d2", none, none⟩, ⟨"sp1", "d3", none, none⟩]
        []).map PlaylistTrackRow.position = List.range' 1 3) ∧
    ((createPlaylistTrackRelations
        [⟨"loc1", "sp1", "n1", "al", 1, 1, 100, none, none, none, none, false, none, 0, 0⟩,
         ⟨"loc2", "sp2", "n2", "al", 2, 1, 100, none, none, none, none, false, none, 0, 0⟩]
        "P" [⟨"sp1", "d1", none, none⟩, ⟨"sp2", "d2", none, none⟩, ⟨"sp1", "d3", none, none⟩]
        []).map (fun r => some r.track_id)
      = [some "loc1", some "loc2", some "loc1"]) := by
  have h := c4_playlist_positions
    [⟨"loc1", "sp1", "n1", "al", 1, 1, 100, none, none, none, none, false, none, 0, 0⟩,
     ⟨"loc2", "sp2", "n2", "al", 2, 1, 100, none, none, none, none, false, none, 0, 0⟩]
    "P" [⟨"sp1", "d1", none, none⟩, ⟨"sp2", "d2", none, none⟩, ⟨"sp1", "d3", none, none⟩]
    (by decide)
  exact ⟨by simpa using h.1, by simpa using h.2.1⟩

/-- Claim C10 (implicit): an item whose external track id has no stored track
contributes no playlist-track row (and the loop body takes no other action
for it), while every found item still gets its source-index-based position
j + 1 — so positions of stored rows keep gaps where items were skipped
instead of being renumbered. -/
theorem c10_missing_track_gaps (trackDb : List TrackRow) (pid : String)
    (items : List PlaylistItem) (j : Nat) (it : PlaylistItem)
    (hj : items[j]? = some it) :
    (findTrackBySpotifyId trackDb it.track_id = none →
      ∀ r ∈ createPlaylistTrackRelations trackDb pid items [], r.position ≠ j + 1) ∧
    (∀ t, findTrackBySpotifyId trackDb it.track_id = some t →
      mkPlaylistTrackRow pid t (j + 1) it
        ∈ createPlaylistTrackRelations trackDb pid items []) := by
  have he : createPlaylistTrackRelations trackDb pid items []
      = linkedRows trackDb pid items 0 := by
    simpa [createPlaylistTrackRelations] using linkLoop_eq trackDb pid items 0 [] (by simp)
  rw [he]
  constructor
  · intro hnone r hr hpos
    obtain ⟨k, it2, t, hk, ht, hre⟩ := linkedRows_mem_inv trackDb pid items 0 r hr
    have hkpos : r.position = k + 1 := by rw [hre]; simp [mkPlaylistTrackRow]
    have hkj : k = j := by omega
    subst hkj
    rw [hj] at hk
    have hit : it = it2 := by simpa using hk
    subst hit
    rw [hnone] at ht
    exact Option.noConfusion ht
  · intro t ht
    simpa using linkedRows_mem_of_found trackDb pid items 0 j it t hj ht

/-- Witness for c10_missing_track_gaps: the first item has no stored track
and yields no row at position 1, while the second item is found and keeps
position 2, leaving a gap. -/
theorem c10_missing_track_gaps_witness :
    (∀ r ∈ createPlaylistTrackRelations
        [⟨"loc2", "sp2", "n2", "al", 2, 1, 100, none, none, none, none, false, none, 0, 0⟩]
        "P" [⟨"spGone", "d1", none, none⟩, ⟨"sp2", "d2", none, none⟩] [],
      r.position ≠ 1) ∧
    mkPlaylistTrackRow "P"
        ⟨"loc2", "sp2", "n2", "al", 2, 1, 100, none, none, none, none, false, none, 0, 0⟩
        2 ⟨"sp2", "d2", none, none⟩
      ∈ createPlaylistTrackRelations
          [⟨"loc2", "sp2", "n2", "al", 2, 1, 100, none, none, none, none, false, none, 0, 0⟩]
          "P" [⟨"spGone", "d1", none, none⟩, ⟨"sp2", "d2", none, none⟩] [] := by
  constructor
  · exact (c10_missing_track_gaps
      [⟨"loc2", "sp2", "n2", "al", 2, 1, 100, none, none, none, none, false, none, 0, 0⟩]
      "P" [⟨"spGone", "d1", none, none⟩, ⟨"sp2", "d2", none, none⟩] 0
      ⟨"spGone", "d1", none, none⟩ (by simp)).1 (by rfl)
  · exact (c10_missing_track_gaps
      [⟨"loc2", "sp2", "n2", "al", 2, 1, 100, none, none, none, none, false, none, 0, 0⟩]
      "P" [⟨"spGone", "d1", none, none⟩, ⟨"sp2", "d2", none, none⟩] 1
      ⟨"sp2", "d2", none, none⟩ (by simp)).2
      ⟨"loc2", "sp2", "n2", "al", 2, 1, 100, none, none, none, none, false, none, 0, 0⟩
      (by rfl)

theorem intersperse_cons_ne_nil {β : Type} (sep a : β) (l : List β) (h : l ≠ []) :
    List.intersperse sep (a :: l) = a :: sep :: List.intersperse sep l := by
  cases l with
  | nil => exact absurd rfl h
  | cons b bs => exact List.intersperse_cons₂ sep

theorem pagedBatches_zero (limit total offset : Nat) (hl : 0 < limit)
    (h : total ≤ offset) : (total - offset + limit - 1) / limit = 0 := by
  have h0 : total - offset = 0 := by omega
  rw [h0]
  exact Nat.div_eq_of_lt (by omega)

theorem pagedBatches_succ (limit total offset : Nat) (hl : 0 < limit)
    (h : offset < total) :
    (total - offset + limit - 1) / limit
      = (total - (offset + limit) + limit - 1) / limit + 1 := by
  by_cases hd : total - offset ≤ limit
  · have h1 : total - (offset + limit) = 0 := by omega
    rw [h1]
    have hz : (0 + limit - 1) / limit = 0 := Nat.div_eq_of_lt (by omega)
    have ho : (total - offset + limit - 1) / limit = 1 :=
      Nat.div_eq_of_lt_le (by omega) (by omega)
    omega
  · have heq : total - offset + limit - 1 = (total - (offset + limit) + limit - 1) + limit := by
      omega
    rw [heq, Nat.add_div_right _ hl]

theorem fetchTracksLoop_spec {α : Type} (pageItems : Nat → List α) (limit total : Nat)
    (hl : 0 < limit) :
    ∀ (n : Nat) (offset : Nat), total - offset ≤ n →
      fetchTracksLoop pageItems limit total offset =
        ((((List.range ((total - offset + limit - 1) / limit)).map
            (fun i => pageItems (offset + i * limit))).flatten),
         List.intersperse FetchEvent.delay
           ((List.range ((total - offset + limit - 1) / limit)).map
             (fun i => FetchEvent.request (offset + i * limit)))) := by
  intro n
  induction n with
  | zero =>
    intro offset h0
    rw [fetchTracksLoop]
    rw [dif_neg (by omega)]
    rw [pagedBatches_zero limit total offset hl (by omega)]
    simp
  | succ n ih =>
    intro offset h
    by_cases hlt : offset < total
    · rw [fetchTracksLoop, dif_pos ⟨hlt, hl⟩]
      rw [ih (offset + limit) (by omega)]
      rw [pagedBatches_succ limit total offset hl hlt]
      generalize hm : (total - (offset + limit) + limit - 1) / limit = m
      rw [List.range_succ_eq_map]
      simp only [List.map_cons, List.map_map, List.flatten_cons]
      have hfun1 : ((fun i => pageItems (offset + i * limit)) ∘ Nat.succ)
          = (fun i => pageItems (offset + limit + i * limit)) := by
        funext i
        have harith : offset + (i + 1) * limit = offset + limit + i * limit := by ring
        simp [Function.comp, Nat.succ_eq_add_one, harith]
      have hfun2 : ((fun i => FetchEvent.request (offset + i * limit)) ∘ Nat.succ)
          = (fun i => FetchEvent.request (offset + limit + i * limit)) := by
        funext i
        have harith : offset + (i + 1) * limit = offset + limit + i * limit := by ring
        simp [Function.comp, Nat.succ_eq_add_one, harith]
      rw [hfun1, hfun2, (by ring : offset + 0 * limit = offset)]
      simp only [Prod.mk.injEq]
      refine ⟨by trivial, ?_⟩
      by_cases hlt2 : offset + limit < total
      · have hmpos : 0 < m := by
          rw [← hm, pagedBatches_succ limit total (offset + limit) hl hlt2]
          exact Nat.succ_pos _
        rw [if_pos hlt2]
        rw [intersperse_cons_ne_nil _ _ _ (by
          intro hc
          rw [List.map_eq_nil_iff, List.range_eq_nil] at hc
          omega)]
      · have hm0 : m = 0 := by
          rw [← hm]
          exact pagedBatches_zero limit total (offset + limit) hl (by omega)
        rw [if_neg hlt2, hm0]
        simp
    · rw [fetchTracksLoop]
      rw [dif_neg (by omega)]
      rw [pagedBatches_zero limit total offset hl (by omega)]
      simp

/-- Claim C6: the pagination loop of fetchPlaylist issues exactly
ceil(total / limit) page requests at offsets 0, limit, 2*limit, ...,
returns the concatenation of the pages in source order, and sleeps the fixed
rate-limit delay exactly once between consecutive requests — never before
the first request and never after the last, as stated by specPagedItems and
specPagedTrace, which are written from the specification text. -/
theorem c6_pagination {α : Type} (pageItems : Nat → List α) (limit total : Nat)
    (hl : 0 < limit) :
    fetchTracksLoop pageItems limit total 0
      = (specPagedItems pageItems limit total, specPagedTrace limit total) := by
  have h := fetchTracksLoop_spec pageItems limit total hl total 0 (by omega)
  simpa [specPagedItems, specPagedTrace] using h

/-- Witness for c6_pagination: total 5, page size 2, three batches. -/
theorem c6_pagination_witness :
    (0 : Nat) < 2 ∧
    fetchTracksLoop (fun o => [o]) 2 5 0
      = (specPagedItems (fun o => [o]) 2 5, specPagedTrace 2 5) :=
  ⟨by decide, c6_pagination (fun o => [o]) 2 5 (by decide)⟩

theorem pageFetchEvents_network :
    ∀ (n i : Nat) (failAt : Option Nat) (e : RunEvent),
      e ∈ (pageFetchEvents i n failAt).1 → ∃ w, e = RunEvent.network w := by
  intro n
  induction n with
  | zero => intro i f e he; simp [pageFetchEvents] at he
  | succ n ih =>
    intro i f e he
    by_cases hf : f = some i
    · simp [pageFetchEvents, hf] at he
      exact ⟨_, he⟩
    · simp only [pageFetchEvents, if_neg hf] at he
      rcases List.mem_cons.mp he with h1 | h1
      · exact ⟨_, h1⟩
      · exact ih (i + 1) f e h1

/-- Claim C9: if authentication fails before any page fetch, the run exits
with failure having performed only the database connection test and the
token call — no entity is created; if some page fetch fails partway through
pagination, the run exits with failure and the whole trace contains no
entity write and no processed record (per-record processing never begins);
if required configuration is missing, the run exits before any effect at
all, network calls included. -/
theorem c9_abort_boundaries (env : EnvConfig) (authOk metaOk : Bool) (nPages : Nat)
    (pageFailAt : Option Nat) (records : List TrackRecord) :
    (strTruthy env.spotify_client_id = true → strTruthy env.spotify_client_secret = true →
     strTruthy env.database_url = true → authOk = false →
     mainRun env authOk metaOk nPages pageFailAt records
       = (Outcome.exitFailure, [RunEvent.dbConnect, RunEvent.network "token"])) ∧
    (strTruthy env.spotify_client_id = true → strTruthy env.spotify_client_secret = true →
     strTruthy env.database_url = true → authOk = true → metaOk = true →
     (pageFetchEvents 0 nPages pageFailAt).2 = false →
     (mainRun env authOk metaOk nPages pageFailAt records).1 = Outcome.exitFailure ∧
     ∀ e ∈ (mainRun env authOk metaOk nPages pageFailAt records).2,
       e.isEntityCreate = false ∧ e.isRecordProcessed = false) ∧
    ((strTruthy env.spotify_client_id = false ∨ strTruthy env.spotify_client_secret = false ∨
      strTruthy env.database_url = false) →
     mainRun env authOk metaOk nPages pageFailAt records = (Outcome.exitFailure, [])) := by
  refine ⟨?_, ?_, ?_⟩
  · intro h1 h2 h3 h4
    simp [mainRun, h1, h2, h3, h4]
  · intro h1 h2 h3 h4 h5 hpf
    rcases hsplit : pageFetchEvents 0 nPages pageFailAt with ⟨pageEvs, ok⟩
    rw [hsplit] at hpf
    replace hpf : ok = false := hpf
    subst hpf
    constructor
    · simp [mainRun, h1, h2, h3, h4, h5, hsplit]
    · intro e he
      simp [mainRun, h1, h2, h3, h4, h5, hsplit] at he
      rcases he with he | he | he | he
      · subst he; exact ⟨rfl, rfl⟩
      · subst he; exact ⟨rfl, rfl⟩
      · subst he; exact ⟨rfl, rfl⟩
      · obtain ⟨w, hw⟩ := pageFetchEvents_network nPages 0 pageFailAt e (by
          rw [hsplit]; exact he)
        subst hw; exact ⟨rfl, rfl⟩
  · intro h
    rcases h with h | h | h
    · simp [mainRun, h]
    · simp [mainRun, h]
    · by_cases hc : (!(strTruthy env.spotify_client_id)
          || !(strTruthy env.spotify_client_secret)) = true <;>
        simp [mainRun, h, hc]

/-- Witness for c9_abort_boundaries: a complete environment with a failed
token exchange, the same environment with a failed second page, and an
environment missing the client secret. -/
theorem c9_abort_boundaries_witness :
    (mainRun ⟨some "id", some "sec", some "db"⟩ false true 3 none []
      = (Outcome.exitFailure, [RunEvent.dbConnect, RunEvent.network "token"])) ∧
    ((mainRun ⟨some "id", some "sec", some "db"⟩ true true 3 (some 1)
        [⟨"t1", "s1", ["a1"], "X", none⟩]).1 = Outcome.exitFailure ∧
     ∀ e ∈ (mainRun ⟨some "id", some "sec", some "db"⟩ true true 3 (some 1)
        [⟨"t1", "s1", ["a1"], "X", none⟩]).2,
       e.isEntityCreate = false ∧ e.isRecordProcessed = false) ∧
    (mainRun ⟨some "id", none, some "db"⟩ true true 3 none []
      = (Outcome.exitFailure, [])) := by
  refine ⟨?_, ?_, ?_⟩
  · exact (c9_abort_boundaries ⟨some "id", some "sec", some "db"⟩ false true 3 none []).1
      (by decide) (by decide) (by decide) rfl
  · exact (c9_abort_boundaries ⟨some "id", some "sec", some "db"⟩ true true 3 (some 1)
      [⟨"t1", "s1", ["a1"], "X", none⟩]).2.1
      (by decide) (by decide) (by decide) rfl rfl (by decide)
  · exact (c9_abort_boundaries ⟨some "id", none, some "db"⟩ true true 3 none []).2.2
      (Or.inr (Or.inl (by decide)))

end MusicSeeder
